import Mathlib

/-! Verification of the X feed-algorithm scoring simulator.

A shallow embedding of `src/simulator.py` (an author-diversity feed-ranking
pipeline) together with proofs about its scoring functions.

Modelling conventions:
* Python `float` score/duration arithmetic is modelled over `ℚ`; every constant
  in the source (`0.7`, `0.5`, `0.3`, `1.5`, …) is an exact decimal, so the
  arithmetic in all statements below is exact.
* Python's `list.sort(key=..., reverse=True)` is a stable descending sort by
  key; it is modelled by `sortDescBy`, a stable descending insertion sort
  (any two stable sorts with the same key agree pointwise).
* The `dict` of per-author counts is modelled as a function `String → ℕ`
  with pointwise update, and `dict.get(a, 0)` as plain application.
* `simulate_phoenix_predictions` draws from a global RNG; the pipeline is
  therefore modelled with the predictor as an explicit function parameter
  (the spec's external `Predictor` collaborator), so a deterministic stub is
  simply a fixed function.
* `getattr(predictions, action)` on a string key can fail in Python
  (`AttributeError`); `weightedScoreGo` models the scoring loop with that
  failure channel explicit, while `compute_weighted_score` is the total
  version used by the pipeline (every key of `ACTION_WEIGHTS` is a field of
  `EngagementPredictions`, so the two agree; see
  `weightedScoreGo_eq_compute`).
-/

/-- The `Post` dataclass from the source: a candidate post for ranking. -/
structure Post where
  id : String
  author_id : String
  text : String
  has_video : Bool
  video_duration_sec : Option ℚ
  is_in_network : Bool
deriving DecidableEq

/-- The `EngagementPredictions` dataclass: Phoenix model predictions for a post,
one field per action kind. -/
structure EngagementPredictions where
  favorite : ℚ
  reply : ℚ
  repost : ℚ
  quote : ℚ
  click : ℚ
  profile_click : ℚ
  video_view : ℚ
  photo_expand : ℚ
  share : ℚ
  dwell : ℚ
  follow_author : ℚ
  not_interested : ℚ
  block_author : ℚ
  mute_author : ℚ
  report : ℚ
deriving DecidableEq

/-- The closed enumeration of engagement-action kinds (the fields of
`EngagementPredictions`). -/
inductive ActionKind where
  | favorite
  | reply
  | repost
  | quote
  | click
  | profile_click
  | video_view
  | photo_expand
  | share
  | dwell
  | follow_author
  | not_interested
  | block_author
  | mute_author
  | report
deriving DecidableEq

/-- The attribute name each `ActionKind` carries in the Python source. -/
def actionName : ActionKind → String
  | .favorite => "favorite"
  | .reply => "reply"
  | .repost => "repost"
  | .quote => "quote"
  | .click => "click"
  | .profile_click => "profile_click"
  | .video_view => "video_view"
  | .photo_expand => "photo_expand"
  | .share => "share"
  | .dwell => "dwell"
  | .follow_author => "follow_author"
  | .not_interested => "not_interested"
  | .block_author => "block_author"
  | .mute_author => "mute_author"
  | .report => "report"

/-- The prediction field an `ActionKind` selects. -/
def predOf (p : EngagementPredictions) : ActionKind → ℚ
  | .favorite => p.favorite
  | .reply => p.reply
  | .repost => p.repost
  | .quote => p.quote
  | .click => p.click
  | .profile_click => p.profile_click
  | .video_view => p.video_view
  | .photo_expand => p.photo_expand
  | .share => p.share
  | .dwell => p.dwell
  | .follow_author => p.follow_author
  | .not_interested => p.not_interested
  | .block_author => p.block_author
  | .mute_author => p.mute_author
  | .report => p.report

/-- The module-level weight table `ACTION_WEIGHTS`, in source order
(insertion order is the iteration order of a Python dict). -/
def ACTION_WEIGHTS : List (String × ℚ) :=
  [("favorite", 1), ("reply", 2), ("repost", 3/2), ("quote", 5/2),
   ("click", 1/2), ("profile_click", 3/10), ("video_view", 4/5),
   ("photo_expand", 3/10), ("share", 3/2), ("dwell", 1/5),
   ("follow_author", 3),
   ("not_interested", -5), ("block_author", -10), ("mute_author", -8),
   ("report", -15)]

/-- Model of `getattr(predictions, action)` for a string attribute name: `some` the
field value when `action` names a prediction field, `none` (an
`AttributeError` in Python) otherwise. -/
def getPred (p : EngagementPredictions) : String → Option ℚ
  | "favorite" => some p.favorite
  | "reply" => some p.reply
  | "repost" => some p.repost
  | "quote" => some p.quote
  | "click" => some p.click
  | "profile_click" => some p.profile_click
  | "video_view" => some p.video_view
  | "photo_expand" => some p.photo_expand
  | "share" => some p.share
  | "dwell" => some p.dwell
  | "follow_author" => some p.follow_author
  | "not_interested" => some p.not_interested
  | "block_author" => some p.block_author
  | "mute_author" => some p.mute_author
  | "report" => some p.report
  | _ => none

/-- The scoring loop of `compute_weighted_score`, over an arbitrary weight
table and with the `getattr` failure channel explicit: walking the table in
order, `score += weight * probability`, erroring (as `getattr` would) on a
key that is not a prediction field. A table key that is merely absent never
errors — it is simply never visited. -/
def weightedScoreGo (p : EngagementPredictions) :
    List (String × ℚ) → ℚ → Except String ℚ
  | [], score => .ok score
  | (action, weight) :: rest, score =>
    match getPred p action with
    | some probability => weightedScoreGo p rest (score + weight * probability)
    | none => .error action

/-- The scorer `compute_weighted_score`: Σ weight_i × P(action_i), iterating over
`ACTION_WEIGHTS` in order (total version; agrees with the loop above on the
full table, see `weightedScoreGo_eq_compute`). -/
def compute_weighted_score (predictions : EngagementPredictions) : ℚ :=
  ACTION_WEIGHTS.foldl
    (fun score aw => score + aw.2 * ((getPred predictions aw.1).getD 0)) 0

/-- The loop body of `apply_author_diversity_decay`, with the running
`author_counts` dict explicit. -/
def decayStep (decay_factor : ℚ) :
    List (Post × ℚ) → (String → ℕ) → List (Post × ℚ)
  | [], _ => []
  | (post, score) :: rest, author_counts =>
    let count := author_counts post.author_id
    let adjusted_score := score * decay_factor ^ count
    (post, adjusted_score) ::
      decayStep decay_factor rest
        (fun a => if a = post.author_id then count + 1 else author_counts a)

/-- The pass `apply_author_diversity_decay`: the k-th post of an author (0-based, in
scan order) has its score multiplied by `decay_factor ^ k`. The source's
default for `decay_factor` is `0.7`; `rank_posts` below always uses it. -/
def apply_author_diversity_decay (posts_with_scores : List (Post × ℚ))
    (decay_factor : ℚ) : List (Post × ℚ) :=
  decayStep decay_factor posts_with_scores (fun _ => 0)

/-- The bonus `video_quality_bonus`: duration-band bonus for video posts. -/
def video_quality_bonus (post : Post) : ℚ :=
  match post.has_video, post.video_duration_sec with
  | false, _ => 0
  | true, none => 0
  | true, some duration =>
    if 15 ≤ duration ∧ duration ≤ 60 then 1/2
    else if (5 ≤ duration ∧ duration < 15) ∨ (60 < duration ∧ duration ≤ 180)
      then 3/10
    else 1/10

/-- Stable descending sort by a rational key: the model of Python's
`list.sort(key=..., reverse=True)`. Implemented as Mathlib's (stable)
insertion sort with relation `key b ≤ key a`. -/
def sortDescBy {α : Type} (key : α → ℚ) (l : List α) : List α :=
  @List.insertionSort α (fun a b => key b ≤ key a)
    (fun a b => inferInstanceAs (Decidable (key b ≤ key a))) l

/-- The full pipeline `rank_posts`. The predictor
(`simulate_phoenix_predictions` in the source, RNG-driven there) is passed
as an explicit function of the post and the `author_id in user_following`
flag; `user_following` (a Python `set[str]`) is a list used only through
membership. -/
def rank_posts (predictor : Post → Bool → EngagementPredictions)
    (posts : List Post) (user_following : List String) :
    List (Post × ℚ × EngagementPredictions) :=
  let scored_posts := posts.map (fun post =>
    let user_follows := user_following.contains post.author_id
    let predictions := predictor post user_follows
    let base_score := compute_weighted_score predictions
    let video_bonus := video_quality_bonus post
    (post, base_score + video_bonus, predictions))
  let sorted_posts := sortDescBy (fun t => t.2.1) scored_posts
  let posts_scores := sorted_posts.map (fun t => (t.1, t.2.1))
  let adjusted := apply_author_diversity_decay posts_scores (7/10)
  let final_results :=
    List.zipWith (fun pr t => (pr.1, pr.2, t.2.2)) adjusted sorted_posts
  sortDescBy (fun t => t.2.1) final_results

/-- The weighted sum written out over the closed `ActionKind` enumeration, as
the spec states it: Σ over all ActionKind a of weights[a] × predictions[a]. -/
def weighted_sum_spec (p : EngagementPredictions) : ℚ :=
  1 * p.favorite + 2 * p.reply + (3/2) * p.repost + (5/2) * p.quote +
    (1/2) * p.click + (3/10) * p.profile_click + (4/5) * p.video_view +
    (3/10) * p.photo_expand + (3/2) * p.share + (1/5) * p.dwell +
    3 * p.follow_author + (-5) * p.not_interested + (-10) * p.block_author +
    (-8) * p.mute_author + (-15) * p.report

/-- The six pipeline steps exactly as the spec lists them (predict; weighted
sum; add video bonus; stable sort descending; diversity decay; stable sort
descending again), for refinement comparison with `rank_posts`. -/
def rank_posts_spec (predictor : Post → Bool → EngagementPredictions)
    (posts : List Post) (user_following : List String) :
    List (Post × ℚ × EngagementPredictions) :=
  let step1to3 := posts.map (fun post =>
    let predictions := predictor post (user_following.contains post.author_id)
    (post, weighted_sum_spec predictions + video_quality_bonus post,
      predictions))
  let step4 := sortDescBy (fun t => t.2.1) step1to3
  let step5 := apply_author_diversity_decay
    (step4.map (fun t => (t.1, t.2.1))) (7/10)
  let rebuilt := List.zipWith (fun pr t => (pr.1, pr.2, t.2.2)) step5 step4
  sortDescBy (fun t => t.2.1) rebuilt

/-! Concrete fixtures. -/

/-- All-zero prediction vector. -/
def zeroPreds : EngagementPredictions := ⟨0,0,0,0,0,0,0,0,0,0,0,0,0,0,0⟩

/-- Prediction vector with only the `quote` probability set. -/
def quotePreds (q : ℚ) : EngagementPredictions := ⟨0,0,0,q,0,0,0,0,0,0,0,0,0,0,0⟩

/-- Prediction vector with only the `report` probability set. -/
def reportPreds (r : ℚ) : EngagementPredictions := ⟨0,0,0,0,0,0,0,0,0,0,0,0,0,0,r⟩

/-- A text-only post by author `"u"`. -/
def postU1 : Post := ⟨"u1", "u", "first", false, none, true⟩

/-- A second text-only post by the same author `"u"`. -/
def postU2 : Post := ⟨"u2", "u", "second", false, none, true⟩

/-- A text-only post by author `"v"`. -/
def postV : Post := ⟨"y", "v", "other", false, none, true⟩

/-- A predictor stub that always returns the zero vector. -/
def constPred : Post → Bool → EngagementPredictions := fun _ _ => zeroPreds

/-- The table `ACTION_WEIGHTS` with the `"report"` entry removed: a weight table that
is missing an entry for an `ActionKind` present in every prediction
vector. -/
def WEIGHTS_MISSING_REPORT : List (String × ℚ) :=
  [("favorite", 1), ("reply", 2), ("repost", 3/2), ("quote", 5/2),
   ("click", 1/2), ("profile_click", 3/10), ("video_view", 4/5),
   ("photo_expand", 3/10), ("share", 3/2), ("dwell", 1/5),
   ("follow_author", 3),
   ("not_interested", -5), ("block_author", -10), ("mute_author", -8)]

/-- A video post with the given duration, for boundary checks. -/
def vidPost (d : ℚ) : Post := ⟨"vid", "a", "v", true, some d, true⟩

/-- A post without video whose duration field nevertheless holds an
in-band value. -/
def noVidPost : Post := ⟨"nv", "a", "v", false, some 30, true⟩

/-- A video post with a negative duration. -/
def negDurPost : Post := ⟨"neg", "a", "v", true, some (-3), true⟩

/-- A second post by author `"u"` with a distinct id, for the tie example. -/
def postX1 : Post := ⟨"x1", "u", "a", false, none, true⟩

/-- A third post by author `"u"` with a distinct id, for the tie example. -/
def postX2 : Post := ⟨"x2", "u", "b", false, none, true⟩

/-- Tie-example batch: one post by `"v"` first, then two by `"u"`. -/
def divPosts : List Post := [postV, postX1, postX2]

/-- Deterministic predictor stub for the tie example: the `"y"` post gets a
quote probability of `0.56` (weighted score `1.4`), the others `0.8`
(weighted score `2`). -/
def divPred : Post → Bool → EngagementPredictions :=
  fun p _ => if p.id = "y" then quotePreds (14/25) else quotePreds (4/5)

/-! Helper lemmas. -/

/-- On the shipped table the explicit-failure scoring loop succeeds and
returns exactly `compute_weighted_score`. -/
theorem weightedScoreGo_eq_compute (p : EngagementPredictions) :
    weightedScoreGo p ACTION_WEIGHTS 0 =
      Except.ok (compute_weighted_score p) := rfl

/-- The source's fold over `ACTION_WEIGHTS` is the spec's Σ over the closed
`ActionKind` enumeration. -/
theorem compute_weighted_score_eq (p : EngagementPredictions) :
    compute_weighted_score p = weighted_sum_spec p := by
  simp [compute_weighted_score, ACTION_WEIGHTS, getPred, weighted_sum_spec]

/-- The decay loop keeps every post in place (same first components). -/
theorem decayStep_map_fst (decay_factor : ℚ) :
    ∀ (pairs : List (Post × ℚ)) (counts : String → ℕ),
      (decayStep decay_factor pairs counts).map Prod.fst = pairs.map Prod.fst
  | [], _ => rfl
  | (post, score) :: rest, counts => by
    simp [decayStep, decayStep_map_fst decay_factor rest]

/-- Pointwise law of the decay loop: starting from counter state `counts`,
the entry at index `i` keeps its post and has its score multiplied by
`decay_factor ^ (initial count + number of strictly earlier entries with the
same author)`. -/
theorem decayStep_getElem (decay_factor : ℚ) :
    ∀ (pairs : List (Post × ℚ)) (counts : String → ℕ) (i : ℕ) (p : Post)
      (s : ℚ), pairs[i]? = some (p, s) →
      (decayStep decay_factor pairs counts)[i]? =
        some (p, s * decay_factor ^
          (counts p.author_id +
            (pairs.take i).countP
              (fun q => q.1.author_id == p.author_id)))
  | [], _, i, p, s, h => by simp at h
  | (post, score) :: rest, counts, 0, p, s, h => by
    simp only [List.getElem?_cons_zero, Option.some.injEq, Prod.mk.injEq] at h
    obtain ⟨rfl, rfl⟩ := h
    simp [decayStep]
  | (post, score) :: rest, counts, i + 1, p, s, h => by
    simp only [List.getElem?_cons_succ] at h
    have ih := decayStep_getElem decay_factor rest
      (fun a => if a = post.author_id
        then counts post.author_id + 1 else counts a) i p s h
    simp only [decayStep, List.getElem?_cons_succ, List.take_succ_cons,
      List.countP_cons] at ih ⊢
    rw [ih]
    have he : (if p.author_id = post.author_id
          then counts post.author_id + 1 else counts p.author_id) +
          List.countP (fun q => q.1.author_id == p.author_id)
            (List.take i rest) =
        counts p.author_id +
          (List.countP (fun q => q.1.author_id == p.author_id)
              (List.take i rest) +
            if post.author_id == p.author_id then 1 else 0) := by
      by_cases hc : p.author_id = post.author_id
      · simp only [if_pos hc, hc, beq_self_eq_true, if_true]
        omega
      · have hb : (post.author_id == p.author_id) = false := by
          refine beq_eq_false_iff_ne.mpr ?_
          exact fun hh => hc hh.symm
        simp only [if_neg hc, hb, Bool.false_eq_true, if_false, Nat.add_zero]
    rw [← he]

/-- Sorting with `sortDescBy` permutes the input. -/
theorem sortDescBy_perm {α : Type} (key : α → ℚ) (l : List α) :
    (sortDescBy key l).Perm l :=
  List.perm_insertionSort _ l

/-- Output of `sortDescBy` is descending in the key. -/
theorem sortDescBy_sorted {α : Type} (key : α → ℚ) (l : List α) :
    (sortDescBy key l).Pairwise (fun a b => key b ≤ key a) := by
  letI : IsTotal α (fun a b => key b ≤ key a) :=
    ⟨fun a b => le_total (key b) (key a)⟩
  letI : IsTrans α (fun a b => key b ≤ key a) :=
    ⟨fun _ _ _ h1 h2 => le_trans h2 h1⟩
  exact List.sorted_insertionSort _ l

/-- Rebuilding after decay keeps every post in place. -/
theorem zip_decay_map_fst (f : ℚ) :
    ∀ (l : List (Post × ℚ × EngagementPredictions)) (counts : String → ℕ),
      (List.zipWith (fun pr t => (pr.1, pr.2, t.2.2))
          (decayStep f (l.map (fun t => (t.1, t.2.1))) counts) l).map Prod.fst
        = l.map Prod.fst
  | [], _ => rfl
  | t :: rest, counts => by
    simp only [List.map_cons, decayStep, List.zipWith_cons_cons]
    exact congrArg (List.cons t.1) (zip_decay_map_fst f rest _)

/-- Every rebuilt triple takes its post and its prediction vector from the
same position of the pre-decay list. -/
theorem zip_decay_mem (f : ℚ) :
    ∀ (l : List (Post × ℚ × EngagementPredictions)) (counts : String → ℕ)
      (u : Post × ℚ × EngagementPredictions),
      u ∈ List.zipWith (fun pr t => (pr.1, pr.2, t.2.2))
          (decayStep f (l.map (fun t => (t.1, t.2.1))) counts) l →
      ∃ t ∈ l, u.1 = t.1 ∧ u.2.2 = t.2.2
  | [], _, u, h => by simp at h
  | t :: rest, counts, u, h => by
    simp only [List.map_cons, decayStep, List.zipWith_cons_cons,
      List.mem_cons] at h
    rcases h with h | h
    · subst h
      exact ⟨t, List.mem_cons_self t rest, rfl, rfl⟩
    · obtain ⟨t', ht', h1, h2⟩ := zip_decay_mem f rest _ u h
      exact ⟨t', List.mem_cons_of_mem t ht', h1, h2⟩

/-! Claims. -/

/-- C1: `apply_author_diversity_decay` returns a sequence of the same
length with the same posts in the same relative order, and the pair at each
position holds the same post with its score multiplied by `factor ^ k`,
where `k` is the number of strictly earlier entries with the same author
(0 for an author's first occurrence), in one left-to-right pass. -/
theorem diversity_decay_law (pairs : List (Post × ℚ)) (factor : ℚ) :
    (apply_author_diversity_decay pairs factor).map Prod.fst
        = pairs.map Prod.fst ∧
    ∀ (i : ℕ) (p : Post) (s : ℚ), pairs[i]? = some (p, s) →
      (apply_author_diversity_decay pairs factor)[i]? =
        some (p, s * factor ^
          ((pairs.take i).countP (fun q => q.1.author_id == p.author_id))) := by
  constructor
  · exact decayStep_map_fst factor pairs _
  · intro i p s h
    have hstep := decayStep_getElem factor pairs (fun _ => 0) i p s h
    simpa using hstep

/-- Witness for C1 at a concrete two-post input with a repeated author. -/
theorem diversity_decay_law_witness :
    (apply_author_diversity_decay [(postU1, 1), (postU2, 1)] (1/2))[1]? =
      some (postU2, 1 * (1/2 : ℚ) ^
        ((([(postU1, (1 : ℚ)), (postU2, 1)]).take 1).countP
          (fun q => q.1.author_id == postU2.author_id))) :=
  (diversity_decay_law [(postU1, 1), (postU2, 1)] (1/2)).2 1 postU2 1 rfl

/-- C2: `rank_posts` is exactly the spec's six-step pipeline — predict
per item, weighted sum Σ weights[a] × predictions[a] over the closed action
enumeration, plus video bonus, stable sort descending, diversity decay on
the sorted sequence, stable sort descending again — and its output is
descending in the final score. -/
theorem rank_pipeline_structure
    (predictor : Post → Bool → EngagementPredictions)
    (posts : List Post) (user_following : List String) :
    rank_posts predictor posts user_following =
      rank_posts_spec predictor posts user_following ∧
    (rank_posts predictor posts user_following).Pairwise
      (fun a b => b.2.1 ≤ a.2.1) := by
  constructor
  · simp only [rank_posts, rank_posts_spec, compute_weighted_score_eq]
  · exact sortDescBy_sorted _ _

/-- C3: the posts in the output of `rank_posts` are a permutation of the
input posts, and empty input yields empty output. -/
theorem rank_conservation
    (predictor : Post → Bool → EngagementPredictions)
    (posts : List Post) (user_following : List String) :
    ((rank_posts predictor posts user_following).map Prod.fst).Perm posts ∧
    rank_posts predictor [] user_following = [] := by
  constructor
  · simp only [rank_posts]
    refine ((sortDescBy_perm _ _).map Prod.fst).trans ?_
    rw [apply_author_diversity_decay, zip_decay_map_fst]
    refine ((sortDescBy_perm _ _).map Prod.fst).trans ?_
    simp [List.map_map, Function.comp_def]
  · rfl

/-- C4 counterexample: with a weight table missing the `"report"` entry
and a prediction vector in which `report` is present (probability 1),
scoring does not fail — it returns `ok 0`, silently dropping the `-15`
contribution that the full table produces. -/
theorem weight_missing_no_failure_cex :
    weightedScoreGo (reportPreds 1) WEIGHTS_MISSING_REPORT 0 = Except.ok 0 ∧
    weightedScoreGo (reportPreds 1) ACTION_WEIGHTS 0 = Except.ok (-15) := by
  constructor <;>
    norm_num [weightedScoreGo, WEIGHTS_MISSING_REPORT, ACTION_WEIGHTS,
      getPred, reportPreds]

/-- C4 amended: the shipped `ACTION_WEIGHTS` has an entry for every
`ActionKind`, so no action goes unscored in the shipped configuration; but
scoring iterates over the weight table itself and never fails on a missing
entry — over any table whose keys are prediction fields it returns `ok`
with the present entries' weighted sum, silently omitting absent actions. -/
theorem weight_coverage_and_silent_skip :
    (∀ a : ActionKind,
      (ACTION_WEIGHTS.lookup (actionName a)).isSome = true) ∧
    ∀ (weights : List (String × ℚ)) (p : EngagementPredictions) (s : ℚ),
      (∀ aw ∈ weights, (getPred p aw.1).isSome = true) →
      weightedScoreGo p weights s =
        Except.ok (weights.foldl
          (fun score aw => score + aw.2 * ((getPred p aw.1).getD 0)) s) := by
  constructor
  · intro a
    cases a <;> rfl
  · intro weights
    induction weights with
    | nil => intro p s _; rfl
    | cons aw rest ih =>
      intro p s hvalid
      obtain ⟨action, weight⟩ := aw
      have h1 : (getPred p action).isSome = true :=
        hvalid _ (List.mem_cons_self _ _)
      obtain ⟨prob, hp⟩ := Option.isSome_iff_exists.mp h1
      simp only [weightedScoreGo, hp, List.foldl_cons]
      rw [ih p _ (fun aw h => hvalid aw (List.mem_cons_of_mem _ h))]
      simp [hp]

/-- Witness for the amended C4 at the report-free table. -/
theorem weight_coverage_and_silent_skip_witness :
    weightedScoreGo (reportPreds 1) WEIGHTS_MISSING_REPORT 0 =
      Except.ok (WEIGHTS_MISSING_REPORT.foldl
        (fun score aw =>
          score + aw.2 * ((getPred (reportPreds 1) aw.1).getD 0)) 0) :=
  weight_coverage_and_silent_skip.2 WEIGHTS_MISSING_REPORT (reportPreds 1) 0
    (by decide)

/-- C5: `video_quality_bonus` returns 0 for a no-video post (whatever
its duration field) and for an unknown duration; for a video of duration
`d` it returns 1/2 on 15 ≤ d ≤ 60, 3/10 on 5 ≤ d < 15 or 60 < d ≤ 180, and
1/10 otherwise; boundary durations behave as the claim lists. -/
theorem video_bonus_bands :
    (∀ post, post.has_video = false → video_quality_bonus post = 0) ∧
    (∀ post, post.video_duration_sec = none → video_quality_bonus post = 0) ∧
    (∀ post (d : ℚ), post.has_video = true →
      post.video_duration_sec = some d →
      video_quality_bonus post =
        if 15 ≤ d ∧ d ≤ 60 then 1/2
        else if (5 ≤ d ∧ d < 15) ∨ (60 < d ∧ d ≤ 180) then 3/10
        else 1/10) ∧
    video_quality_bonus (vidPost (14999/1000)) = 3/10 ∧
    video_quality_bonus (vidPost 15) = 1/2 ∧
    video_quality_bonus (vidPost 60) = 1/2 ∧
    video_quality_bonus (vidPost (60001/1000)) = 3/10 ∧
    video_quality_bonus (vidPost (4999/1000)) = 1/10 ∧
    video_quality_bonus (vidPost 181) = 1/10 ∧
    video_quality_bonus (vidPost 5) = 3/10 ∧
    video_quality_bonus (vidPost 180) = 3/10 ∧
    video_quality_bonus noVidPost = 0 := by
  refine ⟨?_, ?_, ?_, ?_, ?_, ?_, ?_, ?_, ?_, ?_, ?_, ?_⟩
  · intro post h
    simp [video_quality_bonus, h]
  · intro post h
    rcases hv : post.has_video <;> simp [video_quality_bonus, h, hv]
  · intro post d h1 h2
    simp [video_quality_bonus, h1, h2]
  all_goals norm_num [video_quality_bonus, vidPost, noVidPost]

/-- Witness for C5 at an in-band duration. -/
theorem video_bonus_bands_witness :
    video_quality_bonus (vidPost 30) =
      if 15 ≤ (30:ℚ) ∧ (30:ℚ) ≤ 60 then 1/2
      else if (5 ≤ (30:ℚ) ∧ (30:ℚ) < 15) ∨ (60 < (30:ℚ) ∧ (30:ℚ) ≤ 180)
        then 3/10
      else 1/10 :=
  video_bonus_bands.2.2.1 (vidPost 30) 30 rfl rfl

/-- C6 counterexample: a has-video post with negative duration `-3` gets
bonus 1/10, not the 0 the claim requires. -/
theorem video_bonus_negative_duration_cex :
    video_quality_bonus negDurPost = 1/10 ∧
    video_quality_bonus negDurPost ≠ 0 := by
  constructor <;> norm_num [video_quality_bonus, negDurPost]

/-- C6 amended: a has-video post with a negative duration is not treated
as unknown: the bands all fail and the bonus is the acceptable-floor 1/10
(without any error); 0 is returned only for no-video or missing duration. -/
theorem video_bonus_negative_duration (post : Post) (d : ℚ)
    (h1 : post.has_video = true) (h2 : post.video_duration_sec = some d)
    (h3 : d < 0) : video_quality_bonus post = 1/10 := by
  have hn1 : ¬(15 ≤ d ∧ d ≤ 60) := by rintro ⟨ha, -⟩; linarith
  have hn2 : ¬((5 ≤ d ∧ d < 15) ∨ (60 < d ∧ d ≤ 180)) := by
    rintro (⟨ha, -⟩ | ⟨ha, -⟩) <;> linarith
  simp [video_quality_bonus, h1, h2, hn1, hn2]

/-- Witness for the amended C6 at duration `-7`. -/
theorem video_bonus_negative_duration_witness :
    video_quality_bonus (vidPost (-7)) = 1/10 :=
  video_bonus_negative_duration (vidPost (-7)) (-7) rfl rfl (by norm_num)

/-- C7 counterexample: the decay factor 2 lies outside (0, 1], yet
nothing fails: `apply_author_diversity_decay` silently applies it, doubling
the repeated author's second score. -/
theorem decay_factor_not_validated_cex :
    apply_author_diversity_decay [(postU1, 1), (postU2, 1)] 2 =
      [(postU1, 1), (postU2, 2)] ∧
    ¬((0:ℚ) < 2 ∧ (2:ℚ) ≤ 1) := by
  constructor
  · norm_num [apply_author_diversity_decay, decayStep, postU1, postU2]
  · norm_num

/-- C7 amended: no validation exists; every factor outside (0, 1] is
silently applied by the decay formula (and `rank_posts` always calls decay
with the fixed default 7/10, so the pipeline never rejects anything). -/
theorem decay_factor_silently_applied (factor : ℚ)
    (_hout : ¬(0 < factor ∧ factor ≤ 1)) :
    apply_author_diversity_decay [(postU1, 1), (postU2, 1)] factor =
      [(postU1, 1), (postU2, factor)] := by
  norm_num [apply_author_diversity_decay, decayStep, postU1, postU2]

/-- Witness for the amended C7 at factor 2. -/
theorem decay_factor_silently_applied_witness :
    apply_author_diversity_decay [(postU1, 1), (postU2, 1)] 2 =
      [(postU1, 1), (postU2, 2)] :=
  decay_factor_silently_applied 2 (by norm_num)

/-- C8: with the predictor an explicit deterministic stub, `rank_posts`
is a pure function of its inputs — equal inputs give equal output sequences
and scores, with no hidden state. -/
theorem rank_deterministic
    (predictor : Post → Bool → EngagementPredictions)
    (posts1 posts2 : List Post) (fol1 fol2 : List String)
    (h1 : posts1 = posts2) (h2 : fol1 = fol2) :
    rank_posts predictor posts1 fol1 = rank_posts predictor posts2 fol2 := by
  rw [h1, h2]

/-- Witness for C8 on a one-post batch. -/
theorem rank_deterministic_witness :
    rank_posts constPred [postU1] [] = rank_posts constPred [postU1] [] :=
  rank_deterministic constPred [postU1] [postU1] [] [] rfl rfl

/-- C9 counterexample: in the batch `[y, x1, x2]` (input order), `x2`
and `y` end with equal final scores 7/5, yet the final output is
`[x1, x2, y]`: the tie is broken by post-decay order (`x2` before `y`),
not by original input order (`y` before `x2`). -/
theorem final_sort_tie_not_input_order_cex :
    ((rank_posts divPred divPosts []).map (fun t => (t.1.id, t.2.1)))
      = [("x1", 2), ("x2", 7/5), ("y", 7/5)] ∧
    divPosts.map Post.id = ["y", "x1", "x2"] := by
  have sY : compute_weighted_score (quotePreds (14/25)) = 7/5 := by
    norm_num [compute_weighted_score, ACTION_WEIGHTS, getPred, quotePreds]
  have sX : compute_weighted_score (quotePreds (4/5)) = 2 := by
    norm_num [compute_weighted_score, ACTION_WEIGHTS, getPred, quotePreds]
  have hPredY :
      divPred postV false = quotePreds (14/25) := rfl
  have hPredX1 :
      divPred postX1 false = quotePreds (4/5) := rfl
  have hPredX2 :
      divPred postX2 false = quotePreds (4/5) := rfl
  have vbY : video_quality_bonus postV = 0 := rfl
  have vbX1 : video_quality_bonus postX1 = 0 := rfl
  have vbX2 : video_quality_bonus postX2 = 0 := rfl
  have aY : postV.author_id = "v" := rfl
  have aX1 : postX1.author_id = "u" := rfl
  have aX2 : postX2.author_id = "u" := rfl
  have iY : postV.id = "y" := rfl
  have iX1 : postX1.id = "x1" := rfl
  have iX2 : postX2.id = "x2" := rfl
  have hvu : ("v" : String) ≠ "u" := by decide
  have huv : ("u" : String) ≠ "v" := by decide
  constructor
  · norm_num [rank_posts, divPosts, hPredY, hPredX1, hPredX2, sY, sX,
      vbY, vbX1, vbX2, aY, aX1, aX2, iY, iX1, iX2, hvu, huv, sortDescBy,
      List.insertionSort, List.orderedInsert,
      apply_author_diversity_decay, decayStep]
  · rfl

/-- C9 amended: each of the pipeline's two sorts is stable with respect
to the sequence it sorts — elements with equal scores keep that sequence's
relative order. For the pre-decay sort that is original input order; for
the final sort it is the post-decay (pre-decay-rank) order, which can
differ from input order. -/
theorem sort_stable_ties_keep_order {α : Type} (key : α → ℚ) (a b : α)
    (l : List α) (h1 : key a = key b)
    (h2 : List.Sublist [a, b] l) :
    List.Sublist [a, b] (sortDescBy key l) :=
  List.pair_sublist_insertionSort (le_of_eq h1.symm) h2

/-- Witness for the amended C9: a two-element all-ties list stays in
order. -/
theorem sort_stable_ties_keep_order_witness :
    List.Sublist [1, 2] (sortDescBy (fun _ => 0) [1, 2]) :=
  sort_stable_ties_keep_order (fun _ => 0) 1 2 [1, 2] rfl
    (List.Sublist.refl [1, 2])

/-- C10: every output triple of `rank_posts` carries exactly the
prediction vector the predictor produced for that triple's post in step 1:
the index-aligned rebuild after decay preserves the post-to-predictions
association. -/
theorem rank_predictions_aligned
    (predictor : Post → Bool → EngagementPredictions)
    (posts : List Post) (user_following : List String)
    (u : Post × ℚ × EngagementPredictions)
    (h : u ∈ rank_posts predictor posts user_following) :
    u.2.2 = predictor u.1 (user_following.contains u.1.author_id) := by
  simp only [rank_posts] at h
  have h1 := (sortDescBy_perm _ _).mem_iff.mp h
  rw [apply_author_diversity_decay] at h1
  obtain ⟨t, ht, hu1, hu2⟩ := zip_decay_mem (7/10) _ _ u h1
  have h2 := (sortDescBy_perm _ _).mem_iff.mp ht
  simp only [List.mem_map] at h2
  obtain ⟨post, hpost, rfl⟩ := h2
  rw [hu1, hu2]

/-- Witness for C10 on a one-post batch with the constant stub. -/
theorem rank_predictions_aligned_witness :
    ((postU1, (0:ℚ), zeroPreds) : Post × ℚ × EngagementPredictions).2.2 =
      constPred (postU1, (0:ℚ), zeroPreds).1
        (([] : List String).contains (postU1, (0:ℚ), zeroPreds).1.author_id) :=
  rank_predictions_aligned constPred [postU1] [] (postU1, 0, zeroPreds)
    (by norm_num [rank_posts, sortDescBy, List.insertionSort,
      List.orderedInsert, apply_author_diversity_decay, decayStep,
      compute_weighted_score, ACTION_WEIGHTS, getPred, zeroPreds, constPred,
      video_quality_bonus, postU1])
